import Mathlib

/-!
Verification of the nii2dcm DICOM-construction core (`nii2dcm/dcm.py`).

The Python module defines two classes, `Dicom` and `DicomMRI`, whose
constructors populate a pydicom `FileDataset` with attribute values, and a
method `dcm_dictionary_update` that registers vendor-private tags in the
process-wide pydicom dictionary.

Shallow embedding choices:
* a pydicom dataset is modelled as an association list from attribute
  keyword to value; setting an attribute conses a new binding on the front,
  so the observable value of a keyword is the most recent assignment
  (exactly pydicom's overwrite semantics for repeated attribute sets);
* the single wall-clock read `datetime.datetime.now()` and the two
  `strftime` formattings become two explicit string parameters `dateStr`
  and `timeStr` (captured once, used for every date/time field, as in the
  source);
* the external identifier generator `pydicom.uid.generate_uid(None)` is an
  explicit parameter `gen : Nat → String` together with a call counter:
  the k-th call of the constructor uses `gen (n + k)`;
* the process-wide `DicomDictionary` / `keyword_dict` pair becomes an
  explicit `DictState` record of two lookup functions, threaded through
  the constructor.
-/

namespace Nii2dcm

/-- Default output filename, `nii2dcm_tempfile.dcm` in the source. -/
def nii2dcm_temp_filename : String := "nii2dcm_tempfile.dcm"

/-- A DICOM attribute value as assigned by this module: a string, a list of
strings, or an integer. -/
inductive DcmValue where
  | str : String → DcmValue
  | strList : List String → DcmValue
  | nat : Nat → DcmValue
deriving DecidableEq, Repr

/-- A dataset is an association list keyword ↦ value; most recent binding
first. -/
abbrev AttrMap := List (String × DcmValue)

/-- Assigning `self.ds.<k> = v`: the new binding shadows any older one. -/
def setAttr (m : AttrMap) (k : String) (v : DcmValue) : AttrMap :=
  (k, v) :: m

/-- Reading `self.ds.<k>`: the most recent assignment, if any. -/
def getAttr : AttrMap → String → Option DcmValue
  | [], _ => none
  | (k', v) :: m, k => if k = k' then some v else getAttr m k

/-- Reading an attribute expected to hold a plain string. -/
def getStr (m : AttrMap) (k : String) : Option String :=
  match getAttr m k with
  | some (DcmValue.str s) => some s
  | _ => none

/-- One value of the pydicom dictionary: `(VR, VM, description, retired
flag, keyword)`. -/
structure DictEntry where
  vr : String
  vm : String
  description : String
  retired : String
  keyword : String
deriving DecidableEq, Repr

/-- First-match association lookup with decidable key equality. -/
def assocLookup {α β : Type} [DecidableEq α] : List (α × β) → α → Option β
  | [], _ => none
  | (k', v) :: l, k => if k = k' then some v else assocLookup l k

/-- The hard-coded private-tag table `new_dict_items` of
`Dicom.dcm_dictionary_update`, in source order. -/
def new_dict_items : List (Nat × DictEntry) :=
  [ (0x20011002, ⟨"IS", "1", "Chemical Shift Number MR", "", "ChemicalShiftNumberMR"⟩),
    (0x20011008, ⟨"IS", "1", "Phase Number", "", "PhaseNumber"⟩),
    (0x2001100a, ⟨"IS", "1", "Slice Number MR", "", "SliceNumberMR"⟩),
    (0x2001100b, ⟨"CS", "1", "Slice Orientation", "", "SliceOrientation"⟩),
    (0x20011014, ⟨"SL", "1", "Number Of Echoes", "", "NumberOfEchoes"⟩),
    (0x20011015, ⟨"SS", "1", "Number Of Locations", "", "NumberOfLocations"⟩),
    (0x20011016, ⟨"SS", "1", "Number Of PC Directions", "", "NumberOfPCDirections"⟩),
    (0x20011017, ⟨"SL", "1", "Number Of Phases MR", "", "NumberOfPhasesMR"⟩),
    (0x20011018, ⟨"SL", "1", "Number Of Slices MR", "", "NumberOfSlicesMR"⟩),
    (0x20011020, ⟨"LO", "1", "Scanning Technique", "", "ScanningTechnique"⟩),
    (0x20011025, ⟨"SH", "1", "Echo Time Display MR", "", "EchoTimeDisplayMR"⟩),
    (0x20011060, ⟨"SL", "1", "Number Of Stacks", "", "NumberOfStacks"⟩),
    (0x20011063, ⟨"CS", "1", "Examination Source", "", "ExaminationSource"⟩),
    (0x20011081, ⟨"IS", "1", "Number Of Dynamic Scans", "", "NumberOfDynamicScans"⟩),
    (0x2001101a, ⟨"FL", "3", "PC Velocity", "", "PCVelocity"⟩),
    (0x2001101d, ⟨"IS", "1", "Reconstruction Number MR", "", "ReconstructionNumberMR"⟩),
    (0x20051035, ⟨"CS", "1", "", "", "unknowntag20051035"⟩),
    (0x20051011, ⟨"CS", "1", "MR Image Type", "", "MRImageType"⟩),
    (0x2005106e, ⟨"CS", "1", "MR Scan Sequence", "", "MRScanSequence"⟩),
    (0x2001105f, ⟨"SQ", "1", "Stack", "", "Stack"⟩),
    (0x20010010, ⟨"LO", "1", "Private Creator", "", "PrivateCreator20010010"⟩),
    (0x2001102d, ⟨"SS", "1", "StackNumberOfSlices", "", "StackNumberOfSlices"⟩),
    (0x20011032, ⟨"FL", "1", "StackRadialAngle", "", "StackRadialAngle"⟩),
    (0x20011033, ⟨"CS", "1", "StackRadialAxis", "", "StackRadialAxis"⟩),
    (0x20011035, ⟨"SS", "1", "MRSeriesDataType", "", "MRSeriesDataType"⟩),
    (0x20011036, ⟨"CS", "1", "StackType", "", "StackType"⟩),
    (0x20050010, ⟨"LO", "1", "Private Creator", "", "PrivateCreator20050010"⟩),
    (0x20050011, ⟨"LO", "1", "Private Creator", "", "PrivateCreator20050011"⟩),
    (0x20050012, ⟨"LO", "1", "Private Creator", "", "PrivateCreator20050012"⟩),
    (0x20050013, ⟨"LO", "1", "Private Creator", "", "PrivateCreator20050013"⟩),
    (0x20050014, ⟨"LO", "1", "Private Creator", "", "PrivateCreator20050014"⟩),
    (0x20050015, ⟨"LO", "1", "Private Creator", "", "PrivateCreator20050015"⟩),
    (0x20051071, ⟨"FL", "1", "MRStackAngulationAP", "", "MRStackAngulationAP"⟩),
    (0x20051072, ⟨"FL", "1", "MRStackAngulationFH", "", "MRStackAngulationFH"⟩),
    (0x20051073, ⟨"FL", "1", "MRStackAngulationRL", "", "MRStackAngulationRL"⟩),
    (0x20051074, ⟨"FL", "1", "MRStackFovAP", "", "MRStackFovAP"⟩),
    (0x20051075, ⟨"FL", "1", "MRStackFovFH", "", "MRStackFovFH"⟩),
    (0x20051076, ⟨"FL", "1", "MRStackFovRL", "", "MRStackFovRL"⟩),
    (0x20051078, ⟨"FL", "1", "MRStackOffcentreAP", "", "MRStackOffcentreAP"⟩),
    (0x20051079, ⟨"FL", "1", "MRStackOffcentreFH", "", "MRStackOffcentreFH"⟩),
    (0x2005107a, ⟨"FL", "1", "MRStackOffcentreRL", "", "MRStackOffcentreRL"⟩),
    (0x2005107b, ⟨"CS", "1", "MRStackPreparationDirection", "", "MRStackPreparationDirection"⟩),
    (0x2005107e, ⟨"FL", "1", "MRStackSliceDistance", "", "MRStackSliceDistance"⟩),
    (0x20051081, ⟨"CS", "1", "MRStackViewAxis", "", "MRStackViewAxis"⟩),
    (0x2005143c, ⟨"FL", "1", "MRStackTablePosLong", "", "MRStackTablePosLong"⟩),
    (0x2005143d, ⟨"FL", "1", "MRStackTablePosLat", "", "MRStackTablePosLat"⟩),
    (0x2005143e, ⟨"FL", "1", "MRStackPosteriorCoilPos", "", "MRStackPosteriorCoilPos"⟩),
    (0x20051567, ⟨"IS", "1", "MRPhilipsX1", "", "MRPhilipsX1"⟩),
    (0x00089209, ⟨"CS", "1", "Acquisition Contrast", "", "AcquisitionContrast"⟩),
    (0x00189014, ⟨"CS", "1", "Phase Contrast", "", "PhaseContrast"⟩),
    (0x00189090, ⟨"FD", "3", "Velocity Encoding Direction", "", "VelocityEncodingDirection"⟩),
    (0x00189091, ⟨"FD", "1", "Velocity Encoding Minimum Value", "", "VelocityEncodingMinimumValue"⟩) ]

/-- Lookup in the private-tag table with Python dict-literal semantics
(later duplicate keys win): first match in the reversed list. -/
def itemsLookup (tag : Nat) : Option DictEntry :=
  assocLookup new_dict_items.reverse tag

/-- `new_names_dict = dict([(val[4], tag) for tag, val in
new_dict_items.items()])`, as a keyword lookup (later duplicates win). -/
def namesLookup (kw : String) : Option Nat :=
  assocLookup (new_dict_items.map (fun p => (p.2.keyword, p.1))).reverse kw

/-- The process-wide pydicom dictionary state: the tag dictionary
`DicomDictionary` and the reverse map `keyword_dict`, observed through their
lookup functions. -/
@[ext]
structure DictState where
  dict : Nat → Option DictEntry
  kwd : String → Option Nat

/-- `Dicom.dcm_dictionary_update`: `DicomDictionary.update(new_dict_items)`
followed by `keyword_dict.update(new_names_dict)`; entries of the table
override, all other keys keep their previous binding. -/
def dcm_dictionary_update (st : DictState) : DictState where
  dict := fun tag =>
    match itemsLookup tag with
    | some e => some e
    | none => st.dict tag
  kwd := fun kw =>
    match namesLookup kw with
    | some t => some t
    | none => st.kwd kw

/-- The in-memory result of `Dicom.__init__`: the output filename, the
`FileMetaDataset`, the `FileDataset` attribute map with its preamble and VR
flags, and the (updated) process-wide dictionary state. In the source the
dataset holds a reference to the same file-meta object; here the single
`file_meta` field is that shared object. -/
structure Dicom where
  filename : String
  file_meta : AttrMap
  ds : AttrMap
  preamble : List Nat
  is_implicit_VR : Bool
  is_little_endian : Bool
  dictState : DictState

/-- `Dicom.init_study_tags`: one fresh identifier for StudyInstanceUID. -/
def init_study_tags (ds : AttrMap) (uid : String) : AttrMap :=
  setAttr ds "StudyInstanceUID" (DcmValue.str uid)

/-- `Dicom.init_series_tags`: fresh identifiers for SeriesInstanceUID and
FrameOfReferenceUID, empty SeriesNumber and AcquisitionNumber. -/
def init_series_tags (ds : AttrMap) (uidSeries uidFrame : String) : AttrMap :=
  setAttr (setAttr (setAttr (setAttr ds
    "SeriesInstanceUID" (DcmValue.str uidSeries))
    "FrameOfReferenceUID" (DcmValue.str uidFrame))
    "SeriesNumber" (DcmValue.str ""))
    "AcquisitionNumber" (DcmValue.str "")

/-- `Dicom.__init__(filename)`. `dateStr`/`timeStr` are the two `strftime`
renderings of the single `datetime.datetime.now()` read; `gen` is the
external `pydicom.uid.generate_uid` collaborator with `n` its call counter;
`st` is the ambient dictionary state, updated by `dcm_dictionary_update`.
Attribute assignments follow source order exactly. -/
def Dicom.init (st : DictState) (filename dateStr timeStr : String)
    (gen : Nat → String) (n : Nat) : Dicom :=
  let file_meta : AttrMap :=
    setAttr (setAttr []
      "TransferSyntaxUID" (DcmValue.str "1.2.840.10008.1.2.1"))
      "ImplementationVersionName" (DcmValue.str "nii2dcm_DICOM")
  let ds : AttrMap := []
  let ds := setAttr ds "SpecificCharacterSet" (DcmValue.str "ISO_IR 100")
  let ds := setAttr ds "ImageType" (DcmValue.strList ["DERIVED", "SECONDARY"])
  let ds := setAttr ds "ProtocolName" (DcmValue.str "nii2dcm_DICOM")
  let ds := setAttr ds "PatientName" (DcmValue.str "Test^Firstname")
  let ds := setAttr ds "PatientID" (DcmValue.str "12345678")
  let ds := setAttr ds "AccessionNumber" (DcmValue.str "ABCXYZ")
  let ds := setAttr ds "PatientBirthDate" (DcmValue.str "")
  let ds := setAttr ds "PatientSex" (DcmValue.str "")
  let ds := setAttr ds "PatientAge" (DcmValue.str "")
  let ds := setAttr ds "PatientWeight" (DcmValue.str "")
  let ds := setAttr ds "BodyPartExamined" (DcmValue.str "")
  let ds := setAttr ds "InstitutionName" (DcmValue.str "INSTITUTION_NAME_NONE")
  let ds := setAttr ds "Manufacturer" (DcmValue.str "")
  let ds := setAttr ds "ManufacturerModelName" (DcmValue.str "")
  let ds := setAttr ds "StudyDescription" (DcmValue.str "")
  let ds := setAttr ds "InstanceCreatorUID" (DcmValue.str "")
  let ds := setAttr ds "SoftwareVersions" (DcmValue.str "")
  let ds := setAttr ds "SOPClassUID" (DcmValue.str "")
  let ds := setAttr ds "Modality" (DcmValue.str "")
  let ds := setAttr ds "ContentDate" (DcmValue.str dateStr)
  let ds := setAttr ds "ContentTime" (DcmValue.str timeStr)
  let ds := setAttr ds "StudyDate" (DcmValue.str dateStr)
  let ds := setAttr ds "StudyTime" (DcmValue.str timeStr)
  let ds := setAttr ds "SeriesDate" (DcmValue.str dateStr)
  let ds := setAttr ds "SeriesTime" (DcmValue.str timeStr)
  let ds := setAttr ds "AcquisitionDate" (DcmValue.str dateStr)
  let ds := setAttr ds "AcquisitionTime" (DcmValue.str timeStr)
  let ds := setAttr ds "InstanceCreationDate" (DcmValue.str dateStr)
  let ds := setAttr ds "InstanceCreationTime" (DcmValue.str timeStr)
  let ds := setAttr ds "Rows" (DcmValue.str "")
  let ds := setAttr ds "Columns" (DcmValue.str "")
  let ds := setAttr ds "PixelSpacing" (DcmValue.str "")
  let ds := setAttr ds "PixelRepresentation" (DcmValue.str "")
  let ds := setAttr ds "PatientPosition" (DcmValue.str "")
  let ds := setAttr ds "ImageOrientationPatient"
    (DcmValue.strList ["1", "0", "0", "0", "1", "0"])
  let ds := setAttr ds "LossyImageCompression" (DcmValue.str "")
  let ds := setAttr ds "RescaleIntercept" (DcmValue.str "")
  let ds := setAttr ds "RescaleSlope" (DcmValue.str "")
  let ds := setAttr ds "WindowCenter" (DcmValue.str "")
  let ds := setAttr ds "WindowWidth" (DcmValue.str "")
  let ds := setAttr ds "SOPInstanceUID" (DcmValue.str "")
  let ds := setAttr ds "InstanceNumber" (DcmValue.str "")
  let ds := setAttr ds "SliceThickness" (DcmValue.str "")
  let ds := setAttr ds "SpacingBetweenSlices" (DcmValue.str "")
  let ds := setAttr ds "SliceLocation" (DcmValue.str "")
  let ds := setAttr ds "ImagePositionPatient"
    (DcmValue.strList ["0", "0", "0"])
  let ds := init_study_tags ds (gen n)
  let ds := init_series_tags ds (gen (n + 1)) (gen (n + 2))
  { filename := filename
    file_meta := file_meta
    ds := ds
    preamble := List.replicate 128 0
    is_implicit_VR := false
    is_little_endian := true
    dictState := dcm_dictionary_update st }

/-- The two-way branch of `DicomMRI.__init__` choosing PresentationLUTShape
from PhotometricInterpretation (lines 270-273): MONOCHROME2 ↦ IDENTITY,
MONOCHROME1 ↦ INVERSE, anything else leaves the attribute unset. -/
def presentationLUTShape (pi : String) : Option String :=
  if pi = "MONOCHROME2" then some "IDENTITY"
  else if pi = "MONOCHROME1" then some "INVERSE"
  else none

/-- `DicomMRI.__init__(filename)`: runs `Dicom.__init__` via `super()`, then
overrides Modality, MediaStorageSOPClassUID and SOPClassUID, re-assigns
ImageType to its own current value, sets the image-pixel fields, branches on
PhotometricInterpretation for PresentationLUTShape, fixes BitsAllocated to
16 and adds the MR Image Module attributes, in source order. -/
def DicomMRI.init (st : DictState) (filename dateStr timeStr : String)
    (gen : Nat → String) (n : Nat) : Dicom :=
  let base := Dicom.init st filename dateStr timeStr gen n
  let ds := setAttr base.ds "Modality" (DcmValue.str "MR")
  let file_meta := setAttr base.file_meta
    "MediaStorageSOPClassUID" (DcmValue.str "1.2.840.10008.5.1.4.1.1.4")
  let ds := setAttr ds "SOPClassUID" (DcmValue.str "1.2.840.10008.5.1.4.1.1.4")
  let ds :=
    match getAttr ds "ImageType" with
    | some v => setAttr ds "ImageType" v
    | none => ds
  let ds := setAttr ds "SamplesPerPixel" (DcmValue.str "")
  let ds := setAttr ds "PhotometricInterpretation" (DcmValue.str "MONOCHROME2")
  let ds :=
    if getStr ds "PhotometricInterpretation" = some "MONOCHROME2" then
      setAttr ds "PresentationLUTShape" (DcmValue.str "IDENTITY")
    else if getStr ds "PhotometricInterpretation" = some "MONOCHROME1" then
      setAttr ds "PresentationLUTShape" (DcmValue.str "INVERSE")
    else ds
  let ds := setAttr ds "BitsAllocated" (DcmValue.nat 16)
  let ds := setAttr ds "BitsStored" (DcmValue.str "")
  let ds := setAttr ds "HighBit" (DcmValue.str "")
  let ds := setAttr ds "ScanningSequence" (DcmValue.str "RM")
  let ds := setAttr ds "SequenceVariant" (DcmValue.str "")
  let ds := setAttr ds "ScanOptions" (DcmValue.str "")
  let ds := setAttr ds "MRAcquisitionType" (DcmValue.str "")
  let ds := setAttr ds "RepetitionTime" (DcmValue.str "")
  let ds := setAttr ds "EchoTime" (DcmValue.str "")
  let ds := setAttr ds "EchoTrainLength" (DcmValue.str "")
  let ds := setAttr ds "InversionTime" (DcmValue.str "")
  let ds := setAttr ds "TriggerTime" (DcmValue.str "")
  let ds := setAttr ds "SequenceName" (DcmValue.str "")
  let ds := setAttr ds "AngioFlag" (DcmValue.str "")
  let ds := setAttr ds "NumberOfAverages" (DcmValue.str "")
  let ds := setAttr ds "ImagingFrequency" (DcmValue.str "")
  let ds := setAttr ds "ImagedNucleus" (DcmValue.str "")
  let ds := setAttr ds "EchoNumbers" (DcmValue.str "")
  let ds := setAttr ds "MagneticFieldStrength" (DcmValue.str "")
  let ds := setAttr ds "NumberOfPhaseEncodingSteps" (DcmValue.str "")
  let ds := setAttr ds "PercentSampling" (DcmValue.str "")
  let ds := setAttr ds "PercentPhaseFieldOfView" (DcmValue.str "")
  let ds := setAttr ds "PixelBandwidth" (DcmValue.str "")
  let ds := setAttr ds "NominalInterval" (DcmValue.str "")
  let ds := setAttr ds "BeatRejectionFlag" (DcmValue.str "")
  let ds := setAttr ds "LowRRValue" (DcmValue.str "")
  let ds := setAttr ds "HighRRValue" (DcmValue.str "")
  let ds := setAttr ds "IntervalsAcquired" (DcmValue.str "")
  let ds := setAttr ds "IntervalsRejected" (DcmValue.str "")
  let ds := setAttr ds "PVCRejection" (DcmValue.str "")
  let ds := setAttr ds "SkipBeats" (DcmValue.str "")
  let ds := setAttr ds "HeartRate" (DcmValue.str "")
  let ds := setAttr ds "CardiacNumberOfImages" (DcmValue.str "")
  let ds := setAttr ds "TriggerWindow" (DcmValue.str "")
  let ds := setAttr ds "ReconstructionDiameter" (DcmValue.str "")
  let ds := setAttr ds "ReceiveCoilName" (DcmValue.str "")
  let ds := setAttr ds "TransmitCoilName" (DcmValue.str "")
  let ds := setAttr ds "AcquisitionMatrix" (DcmValue.str "")
  let ds := setAttr ds "InPlanePhaseEncodingDirection" (DcmValue.str "")
  let ds := setAttr ds "FlipAngle" (DcmValue.str "")
  let ds := setAttr ds "SAR" (DcmValue.str "")
  let ds := setAttr ds "VariableFlipAngleFlag" (DcmValue.str "")
  let ds := setAttr ds "dBdt" (DcmValue.str "")
  let ds := setAttr ds "TemporalPositionIdentifier" (DcmValue.str "")
  let ds := setAttr ds "NumberOfTemporalPositions" (DcmValue.str "")
  let ds := setAttr ds "TemporalResolution" (DcmValue.str "")
  let ds := setAttr ds "IsocenterPosition" (DcmValue.str "")
  let ds := setAttr ds "B1rms" (DcmValue.str "")
  { base with ds := ds, file_meta := file_meta }

/-- The attribute keywords assigned by `Dicom.__init__` (including the ones
set through `init_study_tags` and `init_series_tags`), in source order. -/
def baseline_attr_keys : List String :=
  [ "SpecificCharacterSet", "ImageType", "ProtocolName",
    "PatientName", "PatientID", "AccessionNumber", "PatientBirthDate",
    "PatientSex", "PatientAge", "PatientWeight", "BodyPartExamined",
    "InstitutionName", "Manufacturer", "ManufacturerModelName",
    "StudyDescription", "InstanceCreatorUID", "SoftwareVersions",
    "SOPClassUID", "Modality",
    "ContentDate", "ContentTime", "StudyDate", "StudyTime",
    "SeriesDate", "SeriesTime", "AcquisitionDate", "AcquisitionTime",
    "InstanceCreationDate", "InstanceCreationTime",
    "Rows", "Columns", "PixelSpacing", "PixelRepresentation",
    "PatientPosition", "ImageOrientationPatient", "LossyImageCompression",
    "RescaleIntercept", "RescaleSlope", "WindowCenter", "WindowWidth",
    "SOPInstanceUID", "InstanceNumber", "SliceThickness",
    "SpacingBetweenSlices", "SliceLocation", "ImagePositionPatient",
    "StudyInstanceUID", "SeriesInstanceUID", "FrameOfReferenceUID",
    "SeriesNumber", "AcquisitionNumber" ]

/-- The MR-acquisition attribute keywords of `DicomMRI.__init__` lines
283-333 that are assigned the empty string (all of the ~45 MR-acquisition
attributes except `ScanningSequence`, which gets `'RM'`). -/
def mr_acq_empty_keys : List String :=
  [ "SequenceVariant", "ScanOptions", "MRAcquisitionType",
    "RepetitionTime", "EchoTime", "EchoTrainLength", "InversionTime",
    "TriggerTime", "SequenceName", "AngioFlag", "NumberOfAverages",
    "ImagingFrequency", "ImagedNucleus", "EchoNumbers",
    "MagneticFieldStrength", "NumberOfPhaseEncodingSteps",
    "PercentSampling", "PercentPhaseFieldOfView", "PixelBandwidth",
    "NominalInterval", "BeatRejectionFlag", "LowRRValue", "HighRRValue",
    "IntervalsAcquired", "IntervalsRejected", "PVCRejection", "SkipBeats",
    "HeartRate", "CardiacNumberOfImages", "TriggerWindow",
    "ReconstructionDiameter", "ReceiveCoilName", "TransmitCoilName",
    "AcquisitionMatrix", "InPlanePhaseEncodingDirection", "FlipAngle",
    "SAR", "VariableFlipAngleFlag", "dBdt", "TemporalPositionIdentifier",
    "NumberOfTemporalPositions", "TemporalResolution",
    "IsocenterPosition", "B1rms" ]

/-- An empty ambient dictionary state, for concrete instantiations. -/
def emptyDict : DictState :=
  ⟨fun _ => none, fun _ => none⟩

/-- A concrete identifier generator satisfying the uniqueness contract:
call `k` yields a string of `k + 1` letters. -/
def uidGenW : Nat → String :=
  fun k => String.mk (List.replicate (k + 1) 'a')

theorem uidGenW_injective : Function.Injective uidGenW := by
  intro a b h
  have h2 := congrArg String.length h
  simp [uidGenW, String.length] at h2
  exact h2

theorem uidGenW_ne_empty (k : Nat) : uidGenW k ≠ "" := by
  intro h
  have h2 := congrArg String.length h
  simp [uidGenW, String.length] at h2

theorem some_str_gen_ne {gen : Nat → String} (hinj : Function.Injective gen)
    {i j : Nat} (hij : i ≠ j) :
    (some (DcmValue.str (gen i)) : Option DcmValue) ≠
      some (DcmValue.str (gen j)) := by
  intro h
  simp only [Option.some.injEq, DcmValue.str.injEq] at h
  exact hij (hinj h)

theorem some_str_gen_ne_empty {gen : Nat → String} (hne : ∀ k, gen k ≠ "")
    (i : Nat) :
    (some (DcmValue.str (gen i)) : Option DcmValue) ≠
      some (DcmValue.str "") := by
  intro h
  simp only [Option.some.injEq, DcmValue.str.injEq] at h
  exact hne i h

/-- C1: for every DicomMRI dataset immediately after construction, with any
filename argument (and any ambient dictionary state, clock reading and
identifier generator), BitsAllocated is 16, Modality is "MR", the dataset's
SOPClassUID is "1.2.840.10008.5.1.4.1.1.4", and the file-meta
MediaStorageSOPClassUID is the same identifier. -/
theorem mr_fixed_fields (st : DictState) (f d t : String)
    (gen : Nat → String) (n : Nat) :
    getAttr (DicomMRI.init st f d t gen n).ds "BitsAllocated" =
      some (DcmValue.nat 16) ∧
    getAttr (DicomMRI.init st f d t gen n).ds "Modality" =
      some (DcmValue.str "MR") ∧
    getAttr (DicomMRI.init st f d t gen n).ds "SOPClassUID" =
      some (DcmValue.str "1.2.840.10008.5.1.4.1.1.4") ∧
    getAttr (DicomMRI.init st f d t gen n).file_meta "MediaStorageSOPClassUID" =
      some (DcmValue.str "1.2.840.10008.5.1.4.1.1.4") :=
  ⟨rfl, rfl, rfl, rfl⟩

/-- C2: for every baseline Dicom dataset after construction, the five listed
Date fields all hold the single date string rendered from the one
construction-time clock read, and the five listed Time fields all hold the
single time string from that same read; in particular the Date fields are
pairwise equal and the Time fields are pairwise equal. -/
theorem baseline_timestamp_shared (st : DictState) (f d t : String)
    (gen : Nat → String) (n : Nat) :
    getAttr (Dicom.init st f d t gen n).ds "ContentDate" =
      some (DcmValue.str d) ∧
    getAttr (Dicom.init st f d t gen n).ds "StudyDate" =
      some (DcmValue.str d) ∧
    getAttr (Dicom.init st f d t gen n).ds "SeriesDate" =
      some (DcmValue.str d) ∧
    getAttr (Dicom.init st f d t gen n).ds "AcquisitionDate" =
      some (DcmValue.str d) ∧
    getAttr (Dicom.init st f d t gen n).ds "InstanceCreationDate" =
      some (DcmValue.str d) ∧
    getAttr (Dicom.init st f d t gen n).ds "ContentTime" =
      some (DcmValue.str t) ∧
    getAttr (Dicom.init st f d t gen n).ds "StudyTime" =
      some (DcmValue.str t) ∧
    getAttr (Dicom.init st f d t gen n).ds "SeriesTime" =
      some (DcmValue.str t) ∧
    getAttr (Dicom.init st f d t gen n).ds "AcquisitionTime" =
      some (DcmValue.str t) ∧
    getAttr (Dicom.init st f d t gen n).ds "InstanceCreationTime" =
      some (DcmValue.str t) :=
  ⟨rfl, rfl, rfl, rfl, rfl, rfl, rfl, rfl, rfl, rfl⟩

/-- C8: for every baseline Dicom dataset after construction (no MR
specialization), both SOPClassUID and Modality hold the empty string. -/
theorem baseline_sop_modality_empty (st : DictState) (f d t : String)
    (gen : Nat → String) (n : Nat) :
    getAttr (Dicom.init st f d t gen n).ds "SOPClassUID" =
      some (DcmValue.str "") ∧
    getAttr (Dicom.init st f d t gen n).ds "Modality" =
      some (DcmValue.str "") :=
  ⟨rfl, rfl⟩

/-- C9: for every baseline Dicom dataset after construction, the file-meta
header has TransferSyntaxUID "1.2.840.10008.1.2.1" (Explicit VR Little
Endian) and the fixed implementation identifier "nii2dcm_DICOM", and the
dataset is bound to the given filename, to that file-meta header, and to a
preamble of exactly 128 zero bytes. -/
theorem baseline_filemeta_binding (st : DictState) (f d t : String)
    (gen : Nat → String) (n : Nat) :
    getAttr (Dicom.init st f d t gen n).file_meta "TransferSyntaxUID" =
      some (DcmValue.str "1.2.840.10008.1.2.1") ∧
    getAttr (Dicom.init st f d t gen n).file_meta "ImplementationVersionName" =
      some (DcmValue.str "nii2dcm_DICOM") ∧
    (Dicom.init st f d t gen n).filename = f ∧
    (Dicom.init st f d t gen n).preamble = List.replicate 128 0 ∧
    (Dicom.init st f d t gen n).preamble.length = 128 :=
  ⟨rfl, rfl, rfl, rfl, by simp [Dicom.init]⟩

/-- C10: for every baseline Dicom dataset after construction, the
patient/study identity fields hold fixed non-empty dummy strings:
PatientName "Test^Firstname", PatientID "12345678", AccessionNumber
"ABCXYZ", InstitutionName "INSTITUTION_NAME_NONE". -/
theorem baseline_dummy_identity_fields (st : DictState) (f d t : String)
    (gen : Nat → String) (n : Nat) :
    (getAttr (Dicom.init st f d t gen n).ds "PatientName" =
      some (DcmValue.str "Test^Firstname") ∧ "Test^Firstname" ≠ "") ∧
    (getAttr (Dicom.init st f d t gen n).ds "PatientID" =
      some (DcmValue.str "12345678") ∧ "12345678" ≠ "") ∧
    (getAttr (Dicom.init st f d t gen n).ds "AccessionNumber" =
      some (DcmValue.str "ABCXYZ") ∧ "ABCXYZ" ≠ "") ∧
    (getAttr (Dicom.init st f d t gen n).ds "InstitutionName" =
      some (DcmValue.str "INSTITUTION_NAME_NONE") ∧
      "INSTITUTION_NAME_NONE" ≠ "") :=
  ⟨⟨rfl, by decide⟩, ⟨rfl, by decide⟩, ⟨rfl, by decide⟩, ⟨rfl, by decide⟩⟩

/-- C3 counterexample: at a concrete construction, ScanningSequence — one of
the MR-acquisition attributes the claim asserts to be an empty-string
placeholder — does not hold the empty string (it holds "RM"). -/
theorem mr_scanning_sequence_counterexample :
    getAttr (DicomMRI.init emptyDict "f.dcm" "20260101" "120000.000000"
      uidGenW 0).ds "ScanningSequence" ≠ some (DcmValue.str "") := by
  decide

/-- C3 amended: for every DicomMRI dataset after construction, every
MR-acquisition attribute populated by the specialization except
ScanningSequence holds the empty-string placeholder, while ScanningSequence
holds the fixed value "RM" (Research Mode). -/
theorem mr_acq_placeholder_values (st : DictState) (f d t : String)
    (gen : Nat → String) (n : Nat) :
    getAttr (DicomMRI.init st f d t gen n).ds "ScanningSequence" =
      some (DcmValue.str "RM") ∧
    ∀ k, k ∈ mr_acq_empty_keys →
      getAttr (DicomMRI.init st f d t gen n).ds k =
        some (DcmValue.str "") := by
  refine ⟨rfl, ?_⟩
  intro k hk
  fin_cases hk <;> rfl

/-- C3 amended, witness: the amended statement applied at a concrete
construction and at the concrete keyword SequenceVariant. -/
theorem mr_acq_placeholder_values_witness :
    getAttr (DicomMRI.init emptyDict "f.dcm" "20260101" "120000.000000"
      uidGenW 0).ds "SequenceVariant" = some (DcmValue.str "") :=
  (mr_acq_placeholder_values emptyDict "f.dcm" "20260101" "120000.000000"
    uidGenW 0).2 "SequenceVariant" (by decide)

/-- C4: for every DicomMRI dataset after construction, PresentationLUTShape
is exactly the value derived from PhotometricInterpretation by the two-way
branch: MONOCHROME2 gives IDENTITY, MONOCHROME1 gives INVERSE, and any
value outside this two-element set leaves PresentationLUTShape unset. -/
theorem mr_presentation_lut (st : DictState) (f d t : String)
    (gen : Nat → String) (n : Nat) :
    getAttr (DicomMRI.init st f d t gen n).ds "PresentationLUTShape" =
      Option.map DcmValue.str (presentationLUTShape
        ((getStr (DicomMRI.init st f d t gen n).ds
          "PhotometricInterpretation").getD "")) ∧
    presentationLUTShape "MONOCHROME2" = some "IDENTITY" ∧
    presentationLUTShape "MONOCHROME1" = some "INVERSE" ∧
    ∀ s, s ≠ "MONOCHROME2" → s ≠ "MONOCHROME1" →
      presentationLUTShape s = none := by
  refine ⟨rfl, rfl, rfl, ?_⟩
  intro s h1 h2
  simp [presentationLUTShape, h1, h2]

/-- C4 witness: the theorem applied at a concrete construction, with the
out-of-set branch instantiated at the concrete value "RGB". -/
theorem mr_presentation_lut_witness :
    presentationLUTShape "RGB" = none :=
  (mr_presentation_lut emptyDict "f.dcm" "20260101" "120000.000000"
    uidGenW 0).2.2.2 "RGB" (by decide) (by decide)

/-- C5: assuming the identifier generator returns a fresh globally-unique
non-empty string on each call (injectivity plus non-emptiness), every
baseline Dicom dataset has non-empty, mutually distinct StudyInstanceUID,
SeriesInstanceUID and FrameOfReferenceUID, and no identifier of one dataset
equals any identifier of a separately constructed dataset (whose generator
calls come later). -/
theorem baseline_uids_unique (st1 st2 : DictState)
    (f1 d1 t1 f2 d2 t2 : String) (gen : Nat → String)
    (hinj : Function.Injective gen) (hne : ∀ k, gen k ≠ "")
    (n m : Nat) (hnm : n + 3 ≤ m) :
    (getAttr (Dicom.init st1 f1 d1 t1 gen n).ds "StudyInstanceUID" ≠
        some (DcmValue.str "") ∧
      getAttr (Dicom.init st1 f1 d1 t1 gen n).ds "SeriesInstanceUID" ≠
        some (DcmValue.str "") ∧
      getAttr (Dicom.init st1 f1 d1 t1 gen n).ds "FrameOfReferenceUID" ≠
        some (DcmValue.str "")) ∧
    (getAttr (Dicom.init st1 f1 d1 t1 gen n).ds "StudyInstanceUID" ≠
        getAttr (Dicom.init st1 f1 d1 t1 gen n).ds "SeriesInstanceUID" ∧
      getAttr (Dicom.init st1 f1 d1 t1 gen n).ds "StudyInstanceUID" ≠
        getAttr (Dicom.init st1 f1 d1 t1 gen n).ds "FrameOfReferenceUID" ∧
      getAttr (Dicom.init st1 f1 d1 t1 gen n).ds "SeriesInstanceUID" ≠
        getAttr (Dicom.init st1 f1 d1 t1 gen n).ds "FrameOfReferenceUID") ∧
    (getAttr (Dicom.init st1 f1 d1 t1 gen n).ds "StudyInstanceUID" ≠
        getAttr (Dicom.init st2 f2 d2 t2 gen m).ds "StudyInstanceUID" ∧
      getAttr (Dicom.init st1 f1 d1 t1 gen n).ds "StudyInstanceUID" ≠
        getAttr (Dicom.init st2 f2 d2 t2 gen m).ds "SeriesInstanceUID" ∧
      getAttr (Dicom.init st1 f1 d1 t1 gen n).ds "StudyInstanceUID" ≠
        getAttr (Dicom.init st2 f2 d2 t2 gen m).ds "FrameOfReferenceUID" ∧
      getAttr (Dicom.init st1 f1 d1 t1 gen n).ds "SeriesInstanceUID" ≠
        getAttr (Dicom.init st2 f2 d2 t2 gen m).ds "StudyInstanceUID" ∧
      getAttr (Dicom.init st1 f1 d1 t1 gen n).ds "SeriesInstanceUID" ≠
        getAttr (Dicom.init st2 f2 d2 t2 gen m).ds "SeriesInstanceUID" ∧
      getAttr (Dicom.init st1 f1 d1 t1 gen n).ds "SeriesInstanceUID" ≠
        getAttr (Dicom.init st2 f2 d2 t2 gen m).ds "FrameOfReferenceUID" ∧
      getAttr (Dicom.init st1 f1 d1 t1 gen n).ds "FrameOfReferenceUID" ≠
        getAttr (Dicom.init st2 f2 d2 t2 gen m).ds "StudyInstanceUID" ∧
      getAttr (Dicom.init st1 f1 d1 t1 gen n).ds "FrameOfReferenceUID" ≠
        getAttr (Dicom.init st2 f2 d2 t2 gen m).ds "SeriesInstanceUID" ∧
      getAttr (Dicom.init st1 f1 d1 t1 gen n).ds "FrameOfReferenceUID" ≠
        getAttr (Dicom.init st2 f2 d2 t2 gen m).ds "FrameOfReferenceUID") := by
  refine ⟨⟨?_, ?_, ?_⟩, ⟨?_, ?_, ?_⟩, ?_, ?_, ?_, ?_, ?_, ?_, ?_, ?_, ?_⟩
  · exact some_str_gen_ne_empty hne n
  · exact some_str_gen_ne_empty hne (n + 1)
  · exact some_str_gen_ne_empty hne (n + 2)
  · exact some_str_gen_ne hinj (by omega)
  · exact some_str_gen_ne hinj (by omega)
  · exact some_str_gen_ne hinj (by omega)
  · exact some_str_gen_ne hinj (by omega)
  · exact some_str_gen_ne hinj (by omega)
  · exact some_str_gen_ne hinj (by omega)
  · exact some_str_gen_ne hinj (by omega)
  · exact some_str_gen_ne hinj (by omega)
  · exact some_str_gen_ne hinj (by omega)
  · exact some_str_gen_ne hinj (by omega)
  · exact some_str_gen_ne hinj (by omega)
  · exact some_str_gen_ne hinj (by omega)

/-- C5 witness: the theorem applied to a concrete injective non-empty
generator with call counters 0 and 3, projected to cross-dataset
distinctness of the two StudyInstanceUID values. -/
theorem baseline_uids_unique_witness :
    getAttr (Dicom.init emptyDict "a.dcm" "20260101" "120000.000000"
        uidGenW 0).ds "StudyInstanceUID" ≠
      getAttr (Dicom.init emptyDict "b.dcm" "20260101" "120000.000000"
        uidGenW 3).ds "StudyInstanceUID" :=
  (baseline_uids_unique emptyDict emptyDict "a.dcm" "20260101"
    "120000.000000" "b.dcm" "20260101" "120000.000000" uidGenW
    uidGenW_injective uidGenW_ne_empty 0 3 (by omega)).2.2.1

/-- C6: applying the private-tag dictionary registration twice to any
ambient dictionary state yields the same observable state (tag lookups and
reverse keyword lookups) as applying it once. -/
theorem dcm_dictionary_update_idempotent (st : DictState) :
    dcm_dictionary_update (dcm_dictionary_update st) =
      dcm_dictionary_update st := by
  refine DictState.ext ?_ ?_
  · funext tag
    cases h : itemsLookup tag <;> simp [dcm_dictionary_update, h]
  · funext kw
    cases h : namesLookup kw <;> simp [dcm_dictionary_update, h]

/-- C7: the MR specialization is a strict extension of the baseline build:
with the same filename, clock reading, generator and ambient state, every
attribute the baseline constructor sets — other than the overridden
Modality and SOPClassUID — has the same value in the DicomMRI dataset as in
the baseline Dicom dataset, and the baseline file-meta entries are
likewise preserved. -/
theorem mr_strict_extension (st : DictState) (f d t : String)
    (gen : Nat → String) (n : Nat) :
    (∀ k, k ∈ baseline_attr_keys → k ≠ "Modality" → k ≠ "SOPClassUID" →
      getAttr (DicomMRI.init st f d t gen n).ds k =
        getAttr (Dicom.init st f d t gen n).ds k) ∧
    getAttr (DicomMRI.init st f d t gen n).file_meta "TransferSyntaxUID" =
      getAttr (Dicom.init st f d t gen n).file_meta "TransferSyntaxUID" ∧
    getAttr (DicomMRI.init st f d t gen n).file_meta
        "ImplementationVersionName" =
      getAttr (Dicom.init st f d t gen n).file_meta
        "ImplementationVersionName" := by
  refine ⟨?_, rfl, rfl⟩
  intro k hk h1 h2
  fin_cases hk <;> first | rfl | exact absurd rfl h1 | exact absurd rfl h2

/-- C7 witness: the theorem applied at a concrete construction and the
concrete baseline attribute PatientName. -/
theorem mr_strict_extension_witness :
    getAttr (DicomMRI.init emptyDict "f.dcm" "20260101" "120000.000000"
        uidGenW 0).ds "PatientName" =
      getAttr (Dicom.init emptyDict "f.dcm" "20260101" "120000.000000"
        uidGenW 0).ds "PatientName" :=
  (mr_strict_extension emptyDict "f.dcm" "20260101" "120000.000000"
    uidGenW 0).1 "PatientName" (by decide) (by decide) (by decide)

end Nii2dcm
